import Mathlib

/-!
Verification of `butterfree/load/writers/historical_feature_store_writer.py`
(class `HistoricalFeatureStoreWriter`) against its specification.

The file is a shallow embedding: pure policy logic of the writer is translated
to Lean functions; the Spark engine and the other butterfree modules the writer
calls into (which are not part of the source under scrutiny) are modelled from
the spec's collaborator contracts, each with a doc comment saying so.
Errors (Python exceptions) are modelled with `Except String`.
-/

namespace Butterfree

/-- Modelled from the spec: the module `butterfree.constants.columns` is not under
src/. The spec fixes the designated event-time column "by convention" and names the
three partition columns year, month, day. -/
def TIMESTAMP_COLUMN : String := "timestamp"

/-- Modelled from the spec: partition-year column name (see `TIMESTAMP_COLUMN`). -/
def PARTITION_YEAR : String := "year"

/-- Modelled from the spec: partition-month column name (see `TIMESTAMP_COLUMN`). -/
def PARTITION_MONTH : String := "month"

/-- Modelled from the spec: partition-day column name (see `TIMESTAMP_COLUMN`). -/
def PARTITION_DAY : String := "day"

/-- Modelled from the spec: `butterfree.constants.spark_constants.DEFAULT_NUM_PARTITIONS`
is not under src/; the spec only says a default partition count is sourced from
configuration. The concrete value is irrelevant to the claims proved here. -/
def DEFAULT_NUM_PARTITIONS : Nat := 200

/-- A calendar date carried by a timestamp value. -/
structure Date where
  year : Int
  month : Int
  day : Int
deriving DecidableEq

/-- A cell value of the columnar dataframe: integer, timestamp, or null. -/
inductive Value where
  | int (i : Int)
  | ts (d : Date)
  | null
deriving DecidableEq

/-- Whether a value is a (non-null) timestamp. -/
def Value.isTs : Value → Bool
  | .ts _ => true
  | _ => false

/-- A row is an ordered association of column names to values. -/
abbrev Row := List (String × Value)

/-- Logical view of a dataframe: a list of rows. -/
abbrev DataFrame := List Row

/-- Modelled from the spec: `pyspark.sql.functions.year` (external engine),
per the collaborator contract of spec section 6 — extracts the calendar year of a
timestamp; null propagates. -/
def yearF : Value → Value
  | .ts d => .int d.year
  | _ => .null

/-- Modelled from the spec: `pyspark.sql.functions.month` (external engine) —
extracts the calendar month of a timestamp; null propagates. -/
def monthF : Value → Value
  | .ts d => .int d.month
  | _ => .null

/-- Modelled from the spec: `pyspark.sql.functions.dayofmonth` (external engine) —
extracts the day of month of a timestamp; null propagates. -/
def dayofmonthF : Value → Value
  | .ts d => .int d.day
  | _ => .null

/-- Value of the first column of the row with the given name (null when absent). -/
def rowGet (r : Row) (name : String) : Value :=
  match r.find? (fun p => p.1 == name) with
  | some p => p.2
  | none => Value.null

/-- Whether the row has a column with the given name. -/
def rowHasColumn (r : Row) (name : String) : Bool :=
  r.any (fun p => p.1 == name)

/-- Set a column on one row: replace in place when the name exists, else append
at the end (the semantics of the engine's add-column operation). -/
def rowSetColumn (r : Row) (name : String) (v : Value) : Row :=
  if rowHasColumn r name then r.map (fun p => if p.1 == name then (p.1, v) else p)
  else r ++ [(name, v)]

/-- Modelled from the spec: the engine's `withColumn`/addColumn collaborator
(spec section 6) — returns a new dataframe with the named column computed per row;
an existing column of that name is replaced, otherwise the column is appended. -/
def withColumn (dataframe : DataFrame) (name : String) (f : Row → Value) : DataFrame :=
  dataframe.map (fun r => rowSetColumn r name (f r))

/-- Modelled from the spec: `butterfree.dataframe_service.repartition_df` is not
under src/. Per spec sections 4.1 and testable property 7 it redistributes the
physical partitions keyed by the given columns and preserves the total row count
and all column values; on the logical row-level view used here it is the identity. -/
def repartition_df (dataframe : DataFrame) (_partition_by : List String)
    (_num_partitions : Nat) : DataFrame :=
  dataframe

/-- Read-only identity of a feature set: logical table name and entity. -/
structure FeatureSet where
  name : String
  entity : String
deriving DecidableEq

/-- Modelled from the spec: `SparkTableSchemaCompatibilityHook` (hooks module, not
under src/) — a pre-write schema check capability, identified by the table name and
database it was constructed for; its internals are out of scope. -/
structure Hook where
  table_name : String
  database : String
deriving DecidableEq

/-- Storage-configuration collaborator (spec section 6): option lookup for a logical
key and a serialization format identifier. -/
structure DbConfig where
  get_options : String → List (String × String)
  format_ : String

/-- Modelled from the spec: `butterfree.configs.db.S3Config` is not under src/;
it stands for the default storage configuration instance `S3Config()`. Its
option map and format are irrelevant to the claims proved here. -/
def S3Config : DbConfig :=
  { get_options := fun _ => [], format_ := "parquet" }

/-- Python dictionary lookup `d.get(key)`: value of the first matching key, else None. -/
def getOption (options : List (String × String)) (key : String) : Option String :=
  (options.find? (fun p => p.1 == key)).map (fun p => p.2)

/-- Python `x or y` where `x` is an optional string: None and the empty string are
falsy. -/
def pyOrStr (x : Option String) (y : String) : String :=
  match x with
  | none => y
  | some s => if s = "" then y else s

/-- Python `x or y` where `x` is an optional integer: None and 0 are falsy. -/
def pyOrNat (x : Option Nat) (y : Nat) : Nat :=
  match x with
  | none => y
  | some n => if n = 0 then y else n

/-- Python `str.lower` restricted to ASCII (sufficient for the configuration
values compared here). -/
def strLower (s : String) : String := ⟨s.data.map Char.toLower⟩

/-- Whether `pat` occurs at the head of `s` (character lists). -/
def isSubAt : List Char → List Char → Bool
  | [], _ => true
  | _ :: _, [] => false
  | a :: as, b :: bs => a = b && isSubAt as bs

/-- Whether `pat` occurs somewhere inside `s` (character lists). -/
def containsChars (pat : List Char) : List Char → Bool
  | [] => pat.isEmpty
  | b :: bs => isSubAt pat (b :: bs) || containsChars pat bs

/-- Whether the string `pat` occurs as a contiguous substring of `s`; used to state
that an error message carries a given piece of information. -/
def strContainsB (pat s : String) : Bool := containsChars pat.data s.data

/-- Modelled from Python's `os.path.join` for two POSIX components: an absolute
second component resets the result; a separator is inserted unless the left part
is empty or already ends in one. -/
def os_path_join_two (a p : String) : String :=
  if p.data.head? = some '/' then p
  else if a = "" ∨ a.data.getLast? = some '/' then a ++ p
  else a ++ "/" ++ p

/-- Modelled from Python's `os.path.join` (POSIX), folding over the components. -/
def os_path_join (a : String) (ps : List String) : String :=
  ps.foldl os_path_join_two a

/-- State of a `HistoricalFeatureStoreWriter` instance: the fields set by
`__init__` (including `debug_mode`, stored by the base class constructor). -/
structure HistoricalFeatureStoreWriter where
  db_config : DbConfig
  check_schema : Option Hook
  database : String
  num_partitions : Nat
  validation_threshold : ℚ
  debug_mode : Bool

/-- The class attribute `PARTITION_BY`. -/
def PARTITION_BY : List String := [PARTITION_YEAR, PARTITION_MONTH, PARTITION_DAY]

/-- The class attribute `DEFAULT_VALIDATION_THRESHOLD` (0.01). -/
def DEFAULT_VALIDATION_THRESHOLD : ℚ := 1 / 100

/-- `HistoricalFeatureStoreWriter.__init__`. `env_historical_database` stands for
the environment variable `FEATURE_STORE_HISTORICAL_DATABASE` read when no database
is given (environment loading itself is out of scope). Python `or` coalescing is
applied exactly where the source applies it. -/
def mkWriter (db_config : Option DbConfig) (database : Option String)
    (num_partitions : Option Nat) (validation_threshold : ℚ) (debug_mode : Bool)
    (check_schema : Option Hook) (env_historical_database : String) :
    HistoricalFeatureStoreWriter :=
  { db_config := db_config.getD S3Config
    check_schema := check_schema
    database := pyOrStr database env_historical_database
    num_partitions := pyOrNat num_partitions DEFAULT_NUM_PARTITIONS
    validation_threshold := validation_threshold
    debug_mode := debug_mode }

/-- `HistoricalFeatureStoreWriter._create_partitions`: add the year, month and day
partition columns derived from the event-time column, then repartition. -/
def _create_partitions (w : HistoricalFeatureStoreWriter) (dataframe : DataFrame) :
    DataFrame :=
  let df1 := withColumn dataframe PARTITION_YEAR
    (fun r => yearF (rowGet r TIMESTAMP_COLUMN))
  let df2 := withColumn df1 PARTITION_MONTH
    (fun r => monthF (rowGet r TIMESTAMP_COLUMN))
  let df3 := withColumn df2 PARTITION_DAY
    (fun r => dayofmonthF (rowGet r TIMESTAMP_COLUMN))
  repartition_df df3 PARTITION_BY w.num_partitions

/-- The message of the `RuntimeError` raised by `load` when the engine's
partition-overwrite mode is not dynamic (after the source lower-cases it). -/
def overwriteModeErrorMessage (partition_overwrite_mode : String) : String :=
  "m=load_incremental, spark.sql.sources.partitionOverwriteMode=" ++
    partition_overwrite_mode ++
    ", msg=partitionOverwriteMode have to be configured to \x27dynamic\x27"

/-- The message of the `AssertionError` raised by `_assert_validation_count`. -/
def validationErrorMessage (table_name : String)
    (written_count dataframe_count : Nat) : String :=
  "Data written to the Historical Feature Store and read back from " ++
    table_name ++ " has a different count than the feature set dataframe. " ++
    "\nNumber of rows in " ++ table_name ++ ": " ++ toString written_count ++
    ".\nNumber of rows in the dataframe: " ++ toString dataframe_count ++ "."

/-- `HistoricalFeatureStoreWriter._assert_validation_count`: passes when the
dataframe count lies within the tolerance band around the written count. -/
def _assert_validation_count (w : HistoricalFeatureStoreWriter)
    (table_name : String) (written_count dataframe_count : Nat) :
    Except String Unit :=
  let lower_bound : ℚ := (1 - w.validation_threshold) * written_count
  let upper_bound : ℚ := (1 + w.validation_threshold) * written_count
  if lower_bound ≤ (dataframe_count : ℚ) ∧ (dataframe_count : ℚ) ≤ upper_bound then
    Except.ok ()
  else
    Except.error (validationErrorMessage table_name written_count dataframe_count)

/-- The write plan returned by `load` on success: the tuple
`(dataframe, db_config, options, database, table_name, partition_by)`. -/
structure WritePlan where
  dataframe : DataFrame
  db_config : DbConfig
  options : List (String × Option String)
  database : String
  table_name : String
  partition_by : List String

/-- Full effect of one `load` call: the returned plan or the raised error, the
hook registered via `add_pre_hook`, and the (possibly mutated) writer state. -/
structure LoadOutput where
  outcome : Except String WritePlan
  used_hook : Hook
  writer : HistoricalFeatureStoreWriter

/-- `HistoricalFeatureStoreWriter.load`. `partition_overwrite_mode_conf` is the
value of the engine configuration key `spark.sql.sources.partitionOverwriteMode`
(the only configuration entry the method queries); in debug mode the source never
reads it. The lazy `check_schema` assignment is the state mutation. -/
def load (w : HistoricalFeatureStoreWriter) (feature_set : FeatureSet)
    (dataframe : DataFrame) (partition_overwrite_mode_conf : String) : LoadOutput :=
  let check_schema : Hook :=
    match w.check_schema with
    | some h => h
    | none => { table_name := feature_set.name, database := w.database }
  let w' : HistoricalFeatureStoreWriter := { w with check_schema := some check_schema }
  let df2 := _create_partitions w' dataframe
  if w'.debug_mode = false ∧ strLower partition_overwrite_mode_conf ≠ "dynamic" then
    { outcome := Except.error
        (overwriteModeErrorMessage (strLower partition_overwrite_mode_conf))
      used_hook := check_schema
      writer := w' }
  else
    let s3_key := os_path_join "historical" [feature_set.entity, feature_set.name]
    let options := [("path", getOption (w'.db_config.get_options s3_key) "path")]
    { outcome := Except.ok
        { dataframe := df2
          db_config := w'.db_config
          options := options
          database := w'.database
          table_name := feature_set.name
          partition_by := PARTITION_BY }
      used_hook := check_schema
      writer := w' }

/-- How `validate` reads back the written data: either through the storage
configuration's format and options, or a direct table read. -/
inductive ReadSpec where
  | formatOptions (format_ : String) (options : List (String × String))
  | table (table_name : String)
deriving DecidableEq

/-- Full effect of one `validate` call: the table identity it resolved, the read
it issued to obtain the written count, and the assertion outcome. -/
structure ValidateOutput where
  table_name : String
  read_back : ReadSpec
  outcome : Except String Unit

/-- `HistoricalFeatureStoreWriter.validate`. `read_count` stands for the engine's
row count of the dataframe obtained by the given read (`spark_client.read` or
`spark_client.read_table` followed by `.count()`). -/
def validate (w : HistoricalFeatureStoreWriter) (feature_set : FeatureSet)
    (dataframe : DataFrame) (read_count : ReadSpec → Nat) : ValidateOutput :=
  let table_name :=
    if w.debug_mode = false then w.database ++ "." ++ feature_set.name
    else "historical_feature_store__" ++ feature_set.name
  let read_back :=
    if w.debug_mode = false then
      ReadSpec.formatOptions w.db_config.format_ (w.db_config.get_options table_name)
    else ReadSpec.table table_name
  let written_count := read_count read_back
  let dataframe_count := dataframe.length
  { table_name := table_name
    read_back := read_back
    outcome := _assert_validation_count w table_name written_count dataframe_count }

/-- The event-time date of a row (zero date when the event-time column is not a
timestamp; the theorems below only use it on rows where it is one). -/
def dateOf (r : Row) : Date :=
  match rowGet r TIMESTAMP_COLUMN with
  | .ts d => d
  | _ => ⟨0, 0, 0⟩

/-- Dataframe of the plan returned by `load` (empty when `load` raised). -/
def planDataframe (o : LoadOutput) : DataFrame :=
  match o.outcome with
  | .ok p => p.dataframe
  | .error _ => []

/-- Options mapping of the plan returned by `load` (empty when `load` raised). -/
def planOptions (o : LoadOutput) : List (String × Option String) :=
  match o.outcome with
  | .ok p => p.options
  | .error _ => []

/-- Partition-column list of the plan returned by `load` (empty when `load` raised). -/
def planPartitionBy (o : LoadOutput) : List String :=
  match o.outcome with
  | .ok p => p.partition_by
  | .error _ => []

/-- The error message raised by `load`, when it raised one. -/
def loadErrorMsg (o : LoadOutput) : Option String :=
  match o.outcome with
  | .error m => some m
  | .ok _ => none

/-- Concrete writer in normal (non-debug) mode, used by witnesses. -/
def wNormal : HistoricalFeatureStoreWriter :=
  { db_config := S3Config
    check_schema := none
    database := "db"
    num_partitions := 200
    validation_threshold := 0
    debug_mode := false }

/-- Concrete writer in debug mode, used by witnesses. -/
def wDebug : HistoricalFeatureStoreWriter :=
  { db_config := S3Config
    check_schema := none
    database := "db"
    num_partitions := 200
    validation_threshold := 0
    debug_mode := true }

/-- Concrete feature set, used by witnesses. -/
def fsUsers : FeatureSet := { name := "users", entity := "user" }

/-- Second concrete feature set, used to exhibit writer reuse. -/
def fsOrders : FeatureSet := { name := "orders", entity := "order" }

/-! Helper lemmas about the substring check. -/

theorem isSubAt_self_append (pat ys : List Char) : isSubAt pat (pat ++ ys) = true := by
  induction pat with
  | nil => rfl
  | cons a as ih => simp [isSubAt, ih]

theorem containsChars_self_append (pat ys : List Char) :
    containsChars pat (pat ++ ys) = true := by
  cases pat with
  | nil => cases ys <;> simp [containsChars, isSubAt]
  | cons a as =>
    have h := isSubAt_self_append (a :: as) ys
    simp only [List.cons_append] at h ⊢
    simp [containsChars, h]

theorem containsChars_append_left (pat x s : List Char)
    (h : containsChars pat s = true) : containsChars pat (x ++ s) = true := by
  induction x with
  | nil => simpa using h
  | cons c cs ih =>
    simp only [List.cons_append, containsChars]
    simp [ih]

theorem strContainsB_append (a t b : String) : strContainsB t (a ++ t ++ b) = true := by
  have := containsChars_append_left t.data a.data (t.data ++ b.data)
    (containsChars_self_append t.data b.data)
  simpa [strContainsB, String.data_append] using this

/-! Helper lemmas about rows and columns. -/

theorem rowHasColumn_append (r s : Row) (n : String) :
    rowHasColumn (r ++ s) n = (rowHasColumn r n || rowHasColumn s n) := by
  simp [rowHasColumn, List.any_append]

theorem rowGet_append_of_has (r s : Row) (n : String)
    (h : rowHasColumn r n = true) : rowGet (r ++ s) n = rowGet r n := by
  induction r with
  | nil => simp [rowHasColumn] at h
  | cons p r ih =>
    by_cases hp : (p.1 == n) = true
    · simp [rowGet, List.find?_cons_of_pos, hp]
    · have h' : rowHasColumn r n = true := by
        simp [rowHasColumn, List.any_cons, hp] at h
        simpa [rowHasColumn] using h
      have := ih h'
      simp only [List.cons_append] at *
      simpa [rowGet, List.find?_cons_of_neg, hp] using this

theorem rowHasColumn_of_ts (r : Row) (n : String) (d : Date)
    (h : rowGet r n = Value.ts d) : rowHasColumn r n = true := by
  induction r with
  | nil => simp [rowGet] at h
  | cons p r ih =>
    have hcons : rowHasColumn (p :: r) n = ((p.1 == n) || rowHasColumn r n) := rfl
    by_cases hp : (p.1 == n) = true
    · rw [hcons, hp, Bool.true_or]
    · have hr := ih (by simpa [rowGet, List.find?_cons_of_neg, hp] using h)
      rw [hcons, hr, Bool.or_true]

theorem rowSetColumn_of_not_has (r : Row) (n : String) (v : Value)
    (h : rowHasColumn r n = false) : rowSetColumn r n v = r ++ [(n, v)] := by
  simp [rowSetColumn, h]

/-! Helper lemmas about the error messages. -/

theorem validationErrorMessage_contains (tn : String) (wc dc : Nat) :
    strContainsB tn (validationErrorMessage tn wc dc) = true ∧
    strContainsB (toString wc) (validationErrorMessage tn wc dc) = true ∧
    strContainsB (toString dc) (validationErrorMessage tn wc dc) = true := by
  refine ⟨?_, ?_, ?_⟩ <;>
  · unfold strContainsB validationErrorMessage
    simp only [String.data_append, List.append_assoc]
    repeat
      first
      | exact containsChars_self_append _ _
      | apply containsChars_append_left

theorem overwriteModeErrorMessage_contains (m : String) :
    strContainsB m (overwriteModeErrorMessage m) = true := by
  unfold strContainsB overwriteModeErrorMessage
  simp only [String.data_append, List.append_assoc]
  repeat
    first
    | exact containsChars_self_append _ _
    | apply containsChars_append_left

/-! The claims. -/

/-- C1: for every validation threshold fixed at construction, every written count
`w` and dataframe count `d`, `_assert_validation_count` passes iff
`(1-t)*w ≤ d ≤ (1+t)*w`; with `t = 0` it passes iff `d = w`; and on failure the
raised assertion error carries the table name, the written count and the
dataframe count. -/
theorem c1_validation_count_iff (w : HistoricalFeatureStoreWriter)
    (table_name : String) (written_count dataframe_count : ℕ) :
    (_assert_validation_count w table_name written_count dataframe_count =
        Except.ok () ↔
      (1 - w.validation_threshold) * written_count ≤ (dataframe_count : ℚ) ∧
        (dataframe_count : ℚ) ≤ (1 + w.validation_threshold) * written_count) ∧
    (w.validation_threshold = 0 →
      (_assert_validation_count w table_name written_count dataframe_count =
          Except.ok () ↔
        dataframe_count = written_count)) ∧
    (∀ msg, _assert_validation_count w table_name written_count dataframe_count =
        Except.error msg →
      strContainsB table_name msg = true ∧
      strContainsB (toString written_count) msg = true ∧
      strContainsB (toString dataframe_count) msg = true) := by
  have key : _assert_validation_count w table_name written_count dataframe_count =
      Except.ok () ↔
      (1 - w.validation_threshold) * written_count ≤ (dataframe_count : ℚ) ∧
        (dataframe_count : ℚ) ≤ (1 + w.validation_threshold) * written_count := by
    unfold _assert_validation_count
    dsimp only
    split_ifs with h
    · simp [h]
    · exact iff_of_false (by simp) h
  refine ⟨key, ?_, ?_⟩
  · intro ht
    rw [key, ht]
    simp only [sub_zero, add_zero, one_mul]
    constructor
    · rintro ⟨h1, h2⟩
      exact_mod_cast le_antisymm h2 h1
    · rintro rfl
      exact ⟨le_refl _, le_refl _⟩
  · intro msg hmsg
    unfold _assert_validation_count at hmsg
    dsimp only at hmsg
    split_ifs at hmsg with h
    injection hmsg with h2
    subst h2
    exact validationErrorMessage_contains _ _ _

/-- Witness for C1: with threshold 0, equal counts pass. -/
theorem c1_validation_count_iff_witness :
    _assert_validation_count wNormal "db.users" 100 100 = Except.ok () :=
  ((c1_validation_count_iff wNormal "db.users" 100 100).2.1 rfl).mpr rfl

/-- C2: when debug mode is off and the lower-cased overwrite-mode configuration is
not "dynamic", `load` raises before returning a plan; when debug mode is on `load`
never reads the setting, i.e. its result is the same for every value of it. -/
theorem c2_overwrite_mode_guard (w : HistoricalFeatureStoreWriter)
    (feature_set : FeatureSet) (dataframe : DataFrame) (v : String) :
    (w.debug_mode = false → strLower v ≠ "dynamic" →
      (load w feature_set dataframe v).outcome =
        Except.error (overwriteModeErrorMessage (strLower v))) ∧
    (w.debug_mode = true →
      ∀ v', load w feature_set dataframe v = load w feature_set dataframe v') := by
  constructor
  · intro h1 h2
    simp [load, h1, h2]
  · intro h1 v'
    simp [load, h1]

/-- Witness for C2: a static overwrite mode in normal mode raises. -/
theorem c2_overwrite_mode_guard_witness :
    (load wNormal fsUsers [] "static").outcome =
      Except.error (overwriteModeErrorMessage (strLower "static")) :=
  (c2_overwrite_mode_guard wNormal fsUsers [] "static").1 rfl (by decide)

/-- C4: every write plan returned by `load` carries the partition-column list
`[year, month, day]`, in that order, independent of the input. -/
theorem c4_partition_by (w : HistoricalFeatureStoreWriter) (feature_set : FeatureSet)
    (dataframe : DataFrame) (v : String)
    (hok : (load w feature_set dataframe v).outcome.isOk = true) :
    planPartitionBy (load w feature_set dataframe v) = ["year", "month", "day"] := by
  by_cases hc : w.debug_mode = false ∧ strLower v ≠ "dynamic"
  · exfalso
    simp [load, hc, Except.isOk, Except.toBool] at hok
  · simp [load, hc, planPartitionBy, PARTITION_BY, PARTITION_YEAR, PARTITION_MONTH,
      PARTITION_DAY]

/-- Witness for C4 at a concrete debug-mode load. -/
theorem c4_partition_by_witness :
    planPartitionBy (load wDebug fsUsers [] "whatever") = ["year", "month", "day"] :=
  c4_partition_by wDebug fsUsers [] "whatever" rfl

/-- C7 counterexample: the constructor stores the threshold unchecked, so a writer
constructed with threshold -1 violates the claimed invariant `0 ≤ t ≤ 1`. -/
theorem c7_threshold_counterexample :
    ¬ (0 ≤ (mkWriter none none none (-1) false none "db").validation_threshold ∧
       (mkWriter none none none (-1) false none "db").validation_threshold ≤ 1) := by
  intro h
  have h0 := h.1
  simp [mkWriter] at h0
  norm_num at h0

/-- C7 (amended): the threshold is fixed at construction exactly as passed and is
never mutated by `load` (the only mutating operation); it lies in [0,1] whenever
the constructor argument does, and the default threshold does, but construction
itself does not enforce the bounds. -/
theorem c7_threshold_amended (db_config : Option DbConfig) (database : Option String)
    (num_partitions : Option Nat) (validation_threshold : ℚ) (debug_mode : Bool)
    (check_schema : Option Hook) (env : String) :
    ((mkWriter db_config database num_partitions validation_threshold debug_mode
        check_schema env).validation_threshold = validation_threshold) ∧
    (0 ≤ validation_threshold ∧ validation_threshold ≤ 1 →
      0 ≤ (mkWriter db_config database num_partitions validation_threshold debug_mode
          check_schema env).validation_threshold ∧
        (mkWriter db_config database num_partitions validation_threshold debug_mode
          check_schema env).validation_threshold ≤ 1) ∧
    (∀ (feature_set : FeatureSet) (dataframe : DataFrame) (v : String),
      (load (mkWriter db_config database num_partitions validation_threshold
          debug_mode check_schema env) feature_set dataframe v).writer.validation_threshold =
        validation_threshold) ∧
    (0 ≤ DEFAULT_VALIDATION_THRESHOLD ∧ DEFAULT_VALIDATION_THRESHOLD ≤ 1) := by
  refine ⟨rfl, ?_, ?_, ?_⟩
  · intro h
    simpa [mkWriter] using h
  · intro feature_set dataframe v
    simp [load, apply_ite, mkWriter]
  · constructor <;> norm_num [DEFAULT_VALIDATION_THRESHOLD]

/-- Witness for C7 (amended): the default threshold is stored as given. -/
theorem c7_threshold_amended_witness :
    (mkWriter none none none DEFAULT_VALIDATION_THRESHOLD false none
      "db").validation_threshold = DEFAULT_VALIDATION_THRESHOLD :=
  (c7_threshold_amended none none none DEFAULT_VALIDATION_THRESHOLD false none "db").1

/-- C10: constructing with `num_partitions` 0 or None yields the default partition
count (Python `or` coalesces falsy values), a nonzero request is kept, while
`validation_threshold` 0 is stored exactly (no coalescing). -/
theorem c10_init_coalescing (db_config : Option DbConfig) (database : Option String)
    (t : ℚ) (debug_mode : Bool) (check_schema : Option Hook) (env : String) :
    ((mkWriter db_config database (some 0) t debug_mode check_schema
        env).num_partitions = DEFAULT_NUM_PARTITIONS) ∧
    ((mkWriter db_config database none t debug_mode check_schema
        env).num_partitions = DEFAULT_NUM_PARTITIONS) ∧
    (∀ n : Nat, n ≠ 0 →
      (mkWriter db_config database (some n) t debug_mode check_schema
        env).num_partitions = n) ∧
    (∀ num_partitions : Option Nat,
      (mkWriter db_config database num_partitions 0 debug_mode check_schema
        env).validation_threshold = 0) := by
  refine ⟨?_, rfl, ?_, fun _ => rfl⟩
  · simp [mkWriter, pyOrNat]
  · intro n hn
    simp [mkWriter, pyOrNat, hn]

/-- Witness for C10: requesting zero partitions yields the default. -/
theorem c10_init_coalescing_witness :
    (mkWriter none none (some 0) 0 false none "db").num_partitions =
      DEFAULT_NUM_PARTITIONS :=
  (c10_init_coalescing none none 0 false none "db").1

/-- Helper: a failing `_assert_validation_count` carries the table name. -/
theorem assert_error_contains_table (w : HistoricalFeatureStoreWriter)
    (table_name : String) (written_count dataframe_count : Nat) (msg : String)
    (h : _assert_validation_count w table_name written_count dataframe_count =
      Except.error msg) : strContainsB table_name msg = true := by
  unfold _assert_validation_count at h
  dsimp only at h
  split_ifs at h with hcond
  injection h with h2
  subst h2
  exact (validationErrorMessage_contains table_name written_count dataframe_count).1

/-- C5: the logical storage key that `load` passes to the storage configuration's
option lookup is the path join of "historical", the feature set's entity and the
feature set's name, independent of the configured database name or partition
count. -/
theorem c5_storage_key (w : HistoricalFeatureStoreWriter) (feature_set : FeatureSet)
    (dataframe : DataFrame) (v : String)
    (hok : (load w feature_set dataframe v).outcome.isOk = true) :
    planOptions (load w feature_set dataframe v) =
      [("path", getOption (w.db_config.get_options
        (os_path_join "historical" [feature_set.entity, feature_set.name])) "path")] ∧
    (∀ (database' : String) (num_partitions' : Nat),
      planOptions (load { w with database := database', num_partitions := num_partitions' }
        feature_set dataframe v) = planOptions (load w feature_set dataframe v)) := by
  by_cases hc : w.debug_mode = false ∧ strLower v ≠ "dynamic"
  · exfalso
    simp [load, hc, Except.isOk, Except.toBool] at hok
  · constructor
    · simp [load, hc, planOptions]
    · intro database' num_partitions'
      simp [load, hc, planOptions]

/-- Witness for C5 at a concrete debug-mode load. -/
theorem c5_storage_key_witness :
    planOptions (load wDebug fsUsers [] "x") = [("path", none)] := by
  have h := (c5_storage_key wDebug fsUsers [] "x" rfl).1
  simpa [wDebug, S3Config, getOption] using h

/-- C6: `validate` resolves the read-back identity per mode — the synthetic
`historical_feature_store__` name with a direct table read in debug mode, and
`database.name` through the storage configuration's format and options in normal
mode — and a failing validation message carries the chosen name. -/
theorem c6_validate_read_identity (w : HistoricalFeatureStoreWriter)
    (feature_set : FeatureSet) (dataframe : DataFrame) (read_count : ReadSpec → Nat) :
    (w.debug_mode = true →
      (validate w feature_set dataframe read_count).table_name =
        "historical_feature_store__" ++ feature_set.name ∧
      (validate w feature_set dataframe read_count).read_back =
        ReadSpec.table ("historical_feature_store__" ++ feature_set.name)) ∧
    (w.debug_mode = false →
      (validate w feature_set dataframe read_count).table_name =
        w.database ++ "." ++ feature_set.name ∧
      (validate w feature_set dataframe read_count).read_back =
        ReadSpec.formatOptions w.db_config.format_
          (w.db_config.get_options (w.database ++ "." ++ feature_set.name))) ∧
    (∀ msg, (validate w feature_set dataframe read_count).outcome = Except.error msg →
      strContainsB (validate w feature_set dataframe read_count).table_name msg =
        true) := by
  refine ⟨?_, ?_, ?_⟩
  · intro hdbg
    constructor <;> simp [validate, hdbg]
  · intro hdbg
    constructor <;> simp [validate, hdbg]
  · intro msg hmsg
    by_cases hdbg : w.debug_mode = false
    · have h1 : (validate w feature_set dataframe read_count).outcome =
          _assert_validation_count w (w.database ++ "." ++ feature_set.name)
            (read_count (ReadSpec.formatOptions w.db_config.format_
              (w.db_config.get_options (w.database ++ "." ++ feature_set.name))))
            dataframe.length := by
        simp [validate, hdbg]
      have h2 : (validate w feature_set dataframe read_count).table_name =
          w.database ++ "." ++ feature_set.name := by
        simp [validate, hdbg]
      rw [h1] at hmsg
      rw [h2]
      exact assert_error_contains_table _ _ _ _ _ hmsg
    · have h1 : (validate w feature_set dataframe read_count).outcome =
          _assert_validation_count w ("historical_feature_store__" ++ feature_set.name)
            (read_count (ReadSpec.table ("historical_feature_store__" ++ feature_set.name)))
            dataframe.length := by
        simp [validate, hdbg]
      have h2 : (validate w feature_set dataframe read_count).table_name =
          "historical_feature_store__" ++ feature_set.name := by
        simp [validate, hdbg]
      rw [h1] at hmsg
      rw [h2]
      exact assert_error_contains_table _ _ _ _ _ hmsg

/-- Witness for C6: in debug mode the synthetic table name is used. -/
theorem c6_validate_read_identity_witness :
    (validate wDebug fsUsers [] (fun _ => 0)).table_name =
      "historical_feature_store__" ++ fsUsers.name :=
  ((c6_validate_read_identity wDebug fsUsers [] (fun _ => 0)).1 rfl).1

/-- C8 counterexample: with no hook supplied at construction, a second `load` on
the same writer for a different feature set registers the hook created for the
first feature set's table identity, not its own. -/
theorem c8_hook_reuse_counterexample :
    (load (load wNormal fsUsers [] "dynamic").writer fsOrders [] "dynamic").used_hook.table_name ≠
      fsOrders.name ∧
    (load (load wNormal fsUsers [] "dynamic").writer fsOrders [] "dynamic").used_hook.table_name =
      fsUsers.name := by
  constructor
  · decide
  · rfl

/-- C8 (amended): the only mutable writer state is the lazily initialized schema
hook and it is first-call-wins: when `check_schema` is already set, `load` uses it
unchanged and leaves the writer intact; when unset, `load` installs the hook for
the current feature set's name and the writer's database. A later `load` for a
different feature set therefore reuses the first feature set's hook rather than
one matching its own table identity. -/
theorem c8_hook_first_call_wins (w : HistoricalFeatureStoreWriter)
    (feature_set : FeatureSet) (dataframe : DataFrame) (v : String) :
    (∀ h : Hook, w.check_schema = some h →
      (load w feature_set dataframe v).writer = w ∧
      (load w feature_set dataframe v).used_hook = h) ∧
    (w.check_schema = none →
      (load w feature_set dataframe v).writer =
        { w with check_schema := some ⟨feature_set.name, w.database⟩ } ∧
      (load w feature_set dataframe v).used_hook = ⟨feature_set.name, w.database⟩) := by
  constructor
  · intro h hh
    have hw : ({ w with check_schema := some h } : HistoricalFeatureStoreWriter) = w := by
      cases w
      simp_all
    constructor
    · simp [load, hh, apply_ite, hw]
    · simp [load, hh, apply_ite]
  · intro hh
    constructor <;> simp [load, hh, apply_ite]

/-- Witness for C8 (amended): the first load installs the hook for its feature set. -/
theorem c8_hook_first_call_wins_witness :
    (load wNormal fsUsers [] "dynamic").used_hook =
      { table_name := "users", database := "db" } :=
  ((c8_hook_first_call_wins wNormal fsUsers [] "dynamic").2 rfl).2

/-- C9 counterexample: for observed mode "STATIC" the raised message carries the
lower-cased value "static" but not the observed value "STATIC". -/
theorem c9_observed_mode_counterexample :
    loadErrorMsg (load wNormal fsUsers [] "STATIC") =
      some (overwriteModeErrorMessage "static") ∧
    strContainsB "STATIC" (overwriteModeErrorMessage "static") = false := by
  constructor
  · rfl
  · decide

/-- C9 (amended): the fatal error raised for a non-dynamic overwrite mode carries
the lower-cased observed mode value in its message (the source lower-cases the
configuration value before both the comparison and the message). -/
theorem c9_error_includes_lowered_mode (w : HistoricalFeatureStoreWriter)
    (feature_set : FeatureSet) (dataframe : DataFrame) (v : String)
    (h1 : w.debug_mode = false) (h2 : strLower v ≠ "dynamic") :
    ∀ msg, (load w feature_set dataframe v).outcome = Except.error msg →
      strContainsB (strLower v) msg = true := by
  intro msg hmsg
  simp [load, h1, h2] at hmsg
  subst hmsg
  exact overwriteModeErrorMessage_contains _

/-- Witness for C9 (amended) at observed mode "STATIC". -/
theorem c9_error_includes_lowered_mode_witness :
    strContainsB (strLower "STATIC")
      (overwriteModeErrorMessage (strLower "STATIC")) = true :=
  c9_error_includes_lowered_mode wNormal fsUsers [] "STATIC" rfl (by decide) _ rfl

/-- Helper: effect of the three chained column additions on one well-formed row. -/
theorem create_partitions_row (r : Row) (d : Date)
    (hts : rowGet r TIMESTAMP_COLUMN = Value.ts d)
    (hy : rowHasColumn r PARTITION_YEAR = false)
    (hm : rowHasColumn r PARTITION_MONTH = false)
    (hd2 : rowHasColumn r PARTITION_DAY = false) :
    rowSetColumn
      (rowSetColumn (rowSetColumn r PARTITION_YEAR (yearF (rowGet r TIMESTAMP_COLUMN)))
        PARTITION_MONTH
        (monthF (rowGet
          (rowSetColumn r PARTITION_YEAR (yearF (rowGet r TIMESTAMP_COLUMN)))
          TIMESTAMP_COLUMN)))
      PARTITION_DAY
      (dayofmonthF (rowGet
        (rowSetColumn
          (rowSetColumn r PARTITION_YEAR (yearF (rowGet r TIMESTAMP_COLUMN)))
          PARTITION_MONTH
          (monthF (rowGet
            (rowSetColumn r PARTITION_YEAR (yearF (rowGet r TIMESTAMP_COLUMN)))
            TIMESTAMP_COLUMN)))
        TIMESTAMP_COLUMN)) =
    r ++ [(PARTITION_YEAR, Value.int d.year), (PARTITION_MONTH, Value.int d.month),
          (PARTITION_DAY, Value.int d.day)] := by
  have hTs : rowHasColumn r TIMESTAMP_COLUMN = true := rowHasColumn_of_ts r _ d hts
  have e1 : rowSetColumn r PARTITION_YEAR (yearF (rowGet r TIMESTAMP_COLUMN)) =
      r ++ [(PARTITION_YEAR, Value.int d.year)] := by
    rw [rowSetColumn_of_not_has _ _ _ hy, hts]
    rfl
  rw [e1]
  have hts1 : rowGet (r ++ [(PARTITION_YEAR, Value.int d.year)]) TIMESTAMP_COLUMN =
      Value.ts d := by
    rw [rowGet_append_of_has _ _ _ hTs, hts]
  have hm1 : rowHasColumn (r ++ [(PARTITION_YEAR, Value.int d.year)]) PARTITION_MONTH =
      false := by
    rw [rowHasColumn_append, hm]
    rfl
  have e2 : rowSetColumn (r ++ [(PARTITION_YEAR, Value.int d.year)]) PARTITION_MONTH
      (monthF (rowGet (r ++ [(PARTITION_YEAR, Value.int d.year)]) TIMESTAMP_COLUMN)) =
      (r ++ [(PARTITION_YEAR, Value.int d.year)]) ++
        [(PARTITION_MONTH, Value.int d.month)] := by
    rw [rowSetColumn_of_not_has _ _ _ hm1, hts1]
    rfl
  rw [e2]
  have hT1 : rowHasColumn (r ++ [(PARTITION_YEAR, Value.int d.year)]) TIMESTAMP_COLUMN =
      true := by
    rw [rowHasColumn_append, hTs]
    rfl
  have hts2 : rowGet ((r ++ [(PARTITION_YEAR, Value.int d.year)]) ++
      [(PARTITION_MONTH, Value.int d.month)]) TIMESTAMP_COLUMN = Value.ts d := by
    rw [rowGet_append_of_has _ _ _ hT1, hts1]
  have hd1 : rowHasColumn ((r ++ [(PARTITION_YEAR, Value.int d.year)]) ++
      [(PARTITION_MONTH, Value.int d.month)]) PARTITION_DAY = false := by
    rw [rowHasColumn_append, rowHasColumn_append, hd2]
    rfl
  rw [rowSetColumn_of_not_has _ _ _ hd1, hts2]
  simp [dayofmonthF, List.append_assoc]

/-- Helper: `_create_partitions` on a dataframe whose rows carry a timestamp
event-time column and none of the partition-column names appends exactly the
three derived integer columns to every row. -/
theorem create_partitions_eq (w : HistoricalFeatureStoreWriter) (df : DataFrame)
    (h : ∀ r ∈ df, (∃ d, rowGet r TIMESTAMP_COLUMN = Value.ts d) ∧
      rowHasColumn r PARTITION_YEAR = false ∧
      rowHasColumn r PARTITION_MONTH = false ∧
      rowHasColumn r PARTITION_DAY = false) :
    _create_partitions w df = df.map (fun r =>
      r ++ [(PARTITION_YEAR, Value.int (dateOf r).year),
            (PARTITION_MONTH, Value.int (dateOf r).month),
            (PARTITION_DAY, Value.int (dateOf r).day)]) := by
  unfold _create_partitions repartition_df withColumn
  dsimp only
  rw [List.map_map, List.map_map]
  apply List.map_congr_left
  intro r hr
  obtain ⟨⟨d, hts⟩, hy, hm, hd2⟩ := h r hr
  have hdate : dateOf r = d := by simp [dateOf, hts]
  simp only [Function.comp]
  rw [create_partitions_row r d hts hy hm hd2, hdate]

/-- C3 counterexample: a dataframe that already carries a column named like the
partition-year column does not gain three additional columns — the existing one is
overwritten in place, so the plan dataframe differs from "input plus three new
columns"; the third conjunct shows the actual output. -/
theorem c3_partition_columns_counterexample :
    (load wDebug fsUsers
        [[("timestamp", Value.ts ⟨2021, 5, 9⟩), ("year", Value.int 1999)]]
        "dynamic").outcome.isOk = true ∧
    planDataframe (load wDebug fsUsers
        [[("timestamp", Value.ts ⟨2021, 5, 9⟩), ("year", Value.int 1999)]]
        "dynamic") ≠
      [[("timestamp", Value.ts ⟨2021, 5, 9⟩), ("year", Value.int 1999),
        ("year", Value.int 2021), ("month", Value.int 5), ("day", Value.int 9)]] ∧
    planDataframe (load wDebug fsUsers
        [[("timestamp", Value.ts ⟨2021, 5, 9⟩), ("year", Value.int 1999)]]
        "dynamic") =
      [[("timestamp", Value.ts ⟨2021, 5, 9⟩), ("year", Value.int 2021),
        ("month", Value.int 5), ("day", Value.int 9)]] := by
  refine ⟨rfl, by decide, rfl⟩

/-- C3 (amended): for every input dataframe whose rows carry a timestamp in the
event-time column and no column named like a partition column, the plan dataframe
returned by `load` equals the input with exactly three additional integer columns
holding the year, month and day of each row's event time; a pre-existing column
with a partition-column name is instead overwritten in place. -/
theorem c3_partition_columns_amended (w : HistoricalFeatureStoreWriter)
    (feature_set : FeatureSet) (df : DataFrame) (v : String)
    (h : ∀ r ∈ df, (∃ d, rowGet r TIMESTAMP_COLUMN = Value.ts d) ∧
      rowHasColumn r PARTITION_YEAR = false ∧
      rowHasColumn r PARTITION_MONTH = false ∧
      rowHasColumn r PARTITION_DAY = false)
    (hok : (load w feature_set df v).outcome.isOk = true) :
    planDataframe (load w feature_set df v) = df.map (fun r =>
      r ++ [(PARTITION_YEAR, Value.int (dateOf r).year),
            (PARTITION_MONTH, Value.int (dateOf r).month),
            (PARTITION_DAY, Value.int (dateOf r).day)]) := by
  by_cases hc : w.debug_mode = false ∧ strLower v ≠ "dynamic"
  · exfalso
    simp [load, hc, Except.isOk, Except.toBool] at hok
  · simp only [load]
    rw [if_neg (by simpa using hc)]
    dsimp only [planDataframe]
    exact create_partitions_eq _ df h

/-- Witness for C3 (amended) on a one-row dataframe. -/
theorem c3_partition_columns_amended_witness :
    planDataframe (load wDebug fsUsers
        [[("timestamp", Value.ts ⟨2021, 5, 9⟩)]] "dynamic") =
      [[("timestamp", Value.ts ⟨2021, 5, 9⟩), ("year", Value.int 2021),
        ("month", Value.int 5), ("day", Value.int 9)]] := by
  have hrows : ∀ r ∈ ([[("timestamp", Value.ts ⟨2021, 5, 9⟩)]] : DataFrame),
      (∃ d, rowGet r TIMESTAMP_COLUMN = Value.ts d) ∧
      rowHasColumn r PARTITION_YEAR = false ∧
      rowHasColumn r PARTITION_MONTH = false ∧
      rowHasColumn r PARTITION_DAY = false := by
    intro r hr
    rw [List.mem_singleton] at hr
    subst hr
    exact ⟨⟨⟨2021, 5, 9⟩, rfl⟩, rfl, rfl, rfl⟩
  exact (c3_partition_columns_amended wDebug fsUsers _ "dynamic" hrows rfl).trans
    (by decide)

end Butterfree
